import Mathlib

/-!
Verification of the capability compiler / dispatcher of the HomeAutomator
repository (src/Tools.py) against its design specification.

The embedding is a shallow one:

* Python strings are `String`; Python `s.startswith(p)`, `s[n:]` and
  `s.replace(pat, "")` are modelled character-by-character (Python indexes
  and slices strings by code points, which coincide with Lean `Char`s here).
* `MoonrakerTools.get_tools` (Tools.py lines 11-16), the method-introspection
  loop `_add_class_methods` (lines 18-57) and the dispatcher `getFunc`
  (lines 58-66) become pure functions over a model of the wrapped object
  graph: the `printer` (`PrinterRequests`), `server` (`ServerRequests`) and
  `server.files` (`ServerRequests._Files`) objects, each described by the
  members that `inspect.getmembers(obj, predicate=inspect.ismethod)` sees
  (the methods defined by `def` in the class, bound to the instance) plus
  the non-method attributes reachable via `getattr`.
* `inspect.getmembers` returns its member list sorted by attribute name
  (CPython sorts the pairs by their first component); this is modelled by an
  insertion sort over the declaration-order method list.
* The concrete method lists below (names, docstrings, parameters) are
  transcribed verbatim from src/moonraker/_PrinterRequests.py and
  src/moonraker/_ServerRequests.py; docstrings keep their exact text,
  including the source indentation that line 30 of Tools.py later strips.
-/

namespace HomeAutomator

/-! ### Character-level models of the Python string operations used -/

/-- Boolean prefix test on character lists; `isPfx p s` is Python
`s.startswith(p)` read over code points. -/
def isPfx : List Char → List Char → Bool
  | [], _ => true
  | _ :: _, [] => false
  | a :: as, b :: bs => a == b && isPfx as bs

/-- Python `s.startswith(p)`. -/
def pyStartsWith (s p : String) : Bool := isPfx p.data s.data

/-- Python slice `s[n:]` (drop the first `n` code points). -/
def pyDrop (s : String) (n : Nat) : String := ⟨s.data.drop n⟩

/-- Characters of Python `s.replace(pat, "")`: delete the non-overlapping
occurrences of `pat`, scanning left to right. The extra fuel argument (at
least the list's length at every call) makes the recursion structural, so
the function computes by unfolding; each deletion consumes at least one
character, so the fuel never runs out when it starts at the length. -/
def removeAllAux (pat : List Char) : Nat → List Char → List Char
  | _, [] => []
  | 0, l => l
  | fuel + 1, c :: cs =>
    if 0 < pat.length ∧ isPfx pat (c :: cs) = true then
      removeAllAux pat fuel ((c :: cs).drop pat.length)
    else
      c :: removeAllAux pat fuel cs

/-- Python `replace(pat, "")` over character lists. -/
def removeAll (pat l : List Char) : List Char := removeAllAux pat l.length l

/-- Python `s.replace(pat, "")`. -/
def pyRemove (s pat : String) : String := ⟨removeAll pat.data s.data⟩

/-- Python's `<` on strings (lexicographic over code points), as a Boolean;
`list.sort(key=...)` orders by this relation. -/
def strLtB : List Char → List Char → Bool
  | [], [] => false
  | [], _ :: _ => true
  | _ :: _, [] => false
  | a :: as, b :: bs => if a == b then strLtB as bs else decide (a < b)

/-- The non-strict companion of `strLtB`, used as the sorting relation. -/
def strLeB (a b : List Char) : Bool := !strLtB b a

/-! ### Data model: what introspection sees of the wrapped object graph -/

/-- A parameter's declared annotation as `inspect.signature` reports it,
classified by what `getattr(param.annotation, '__name__', 'string')`
(Tools.py line 37) observes on it. -/
inductive AnnTag
  /-- No annotation: `param.annotation` is `inspect.Parameter.empty`, i.e.
  the class `inspect._empty`, whose `__name__` is the string `"_empty"`. -/
  | empty
  /-- An annotation object carrying `__name__ = n` (e.g. the classes `str`,
  `bool`, `int`, or `typing.List[str]` whose `__name__` is `"List"` on the
  CPython 3.11 this repository targets). -/
  | named (n : String)
  /-- An annotation object with no `__name__` attribute, where the `getattr`
  default `'string'` fires. -/
  | unnamed
deriving DecidableEq, Repr

/-- One parameter of a method signature. -/
structure Param where
  name : String
  annot : AnnTag
  hasDefault : Bool
deriving DecidableEq, Repr

/-- One bound method, as introspection sees it: attribute name, `__doc__`
(`none` when the method has no docstring), and the parameters of
`inspect.signature(func)` — the receiver is already absent from a bound
method's signature. -/
structure Method where
  name : String
  doc : Option String
  params : List Param
deriving DecidableEq, Repr

/-- One Python object of the wrapped graph: the members that
`inspect.getmembers(obj, predicate=inspect.ismethod)` yields (in class
declaration order; the model sorts them where getmembers does), plus the
names of the non-method attributes `getattr` can also reach. -/
structure PyObj where
  methods : List Method
  attrs : List String
deriving DecidableEq, Repr

/-- The object graph `MoonrakerTools` walks: `self.moonraker.printer`,
`self.moonraker.server` and `self.moonraker.server.files`. -/
structure MoonrakerModel where
  printer : PyObj
  server : PyObj
  files : PyObj
deriving DecidableEq, Repr

/-! ### The emitted tool descriptors (the dict built at Tools.py lines 44-57) -/

/-- The `{type, description}` value stored per parameter name. -/
structure PropSpec where
  type : String
  description : String
deriving DecidableEq, Repr

/-- The `parameters` sub-dict of a descriptor; `properties` is the dict in
its insertion order. -/
structure ToolParameters where
  type : String
  properties : List (String × PropSpec)
  required : List String
  additionalProperties : Bool
deriving DecidableEq, Repr

/-- The `function` sub-dict of a descriptor. -/
structure ToolFunction where
  name : String
  description : String
  parameters : ToolParameters
  strict : Bool
deriving DecidableEq, Repr

/-- One tool descriptor as appended to the catalog. -/
structure Tool where
  type : String
  function : ToolFunction
deriving DecidableEq, Repr

/-! ### The capability compiler (Tools.py lines 11-57) -/

/-- Tools.py line 37: `getattr(param.annotation, '__name__', 'string')`. -/
def annotTypeTag : AnnTag → String
  | .empty => "_empty"
  | .named n => n
  | .unnamed => "string"

/-- The sentinel of Tools.py line 29. -/
def sentinel : String := "No description available."

/-- Tools.py line 29: `func.__doc__ or "No description available."` — Python
`or` replaces the falsy values `None` and `""`. -/
def docOr : Option String → String
  | none => sentinel
  | some s => if s = "" then sentinel else s

/-- The literal of Tools.py line 30: twelve spaces. -/
def twelveSpaces : String := "            "

/-- The getmembers ordering: sort the declaration-order member list by
attribute name (CPython's `inspect.getmembers` sorts its result pairs,
stably, by name). -/
def sortMembers (l : List Method) : List Method :=
  List.insertionSort (fun a b => strLeB a.name.data b.name.data = true) l

/-- The descriptor the loop body of `_add_class_methods` (Tools.py lines
29-57) appends for one method `m` under prefix `pre`: description is the
docstring with twelve-space runs removed (sentinel-filled first), every
signature parameter except one named `self` becomes a property with the
annotation's type tag, and the parameters without a default form
`required`. -/
def mkTool (pre : String) (m : Method) : Tool :=
  { type := "function"
    function :=
    { name := pre ++ m.name
      description := pyRemove (docOr m.doc) twelveSpaces
      parameters :=
      { type := "object"
        properties := (m.params.filter (fun p => p.name != "self")).map
          (fun p => (p.name,
            { type := annotTypeTag p.annot
              description := "Parameter " ++ p.name }))
        required := (m.params.filter
            (fun p => p.name != "self" && !p.hasDefault)).map Param.name
        additionalProperties := false }
      strict := true } }

/-- `_add_class_methods(obj, tools, prefix)` (Tools.py lines 18-57): walk the
getmembers list, skip members whose name starts with `_`, and append one
descriptor per remaining method. -/
def addClassMethods (obj : PyObj) (pre : String) : List Tool :=
  (sortMembers obj.methods).filterMap
    (fun m => if pyStartsWith m.name "_" then none else some (mkTool pre m))

/-- `MoonrakerTools.get_tools` (Tools.py lines 11-16): printer members under
`printer_`, then server members under `server_`, then `server.files` members
under `server.files_`. -/
def get_tools (mk : MoonrakerModel) : List Tool :=
  addClassMethods mk.printer "printer_" ++
    addClassMethods mk.server "server_" ++
      addClassMethods mk.files "server.files_"

/-! ### The dispatcher (Tools.py lines 58-66) -/

/-- Which of the three wrapped objects a dispatch landed on. -/
inductive Owner
  | printer
  | server
  | files
deriving DecidableEq, Repr

/-- The object of `mk` an `Owner` denotes. -/
def ownerObj (mk : MoonrakerModel) : Owner → PyObj
  | .printer => mk.printer
  | .server => mk.server
  | .files => mk.files

/-- The flat-name prefix `get_tools` uses for each owner. -/
def ownerPre : Owner → String
  | .printer => "printer_"
  | .server => "server_"
  | .files => "server.files_"

/-- The possible outcomes of `getFunc`: a bound method returned by
`getattr`, a non-method attribute returned by `getattr`, an
`AttributeError` raised by `getattr`, or the implicit `None` when no
`startswith` branch matches. -/
inductive GetFuncResult
  | boundMethod (o : Owner) (m : Method)
  | attrValue (o : Owner) (a : String)
  | attrError (a : String)
  | pyNone
deriving DecidableEq, Repr

/-- The first member of `o.methods` named `n` — what `getattr` returns when
the attribute is a method. -/
def lookupMethod (o : PyObj) (n : String) : Option Method :=
  o.methods.find? (fun m => m.name == n)

/-- `getattr(obj, n)` on the model: a bound method when `n` names one, a
plain attribute value when `n` is a non-method attribute, otherwise an
`AttributeError`. -/
def getattrOn (mk : MoonrakerModel) (o : Owner) (n : String) : GetFuncResult :=
  match lookupMethod (ownerObj mk o) n with
  | some m => .boundMethod o m
  | none =>
    if n ∈ (ownerObj mk o).attrs then .attrValue o n else .attrError n

/-- `MoonrakerTools.getFunc` (Tools.py lines 58-66): read
`tool["function"]["name"]`, test the three prefixes in order with
`startswith`, strip the literal's length, and `getattr` on the matching
object; falling through every branch returns Python's implicit `None`. -/
def getFunc (mk : MoonrakerModel) (tool : Tool) : GetFuncResult :=
  let func : String := tool.function.name
  if pyStartsWith func "printer_" then
    getattrOn mk .printer (pyDrop func ("printer_".length))
  else if pyStartsWith func "server_" then
    getattrOn mk .server (pyDrop func ("server_".length))
  else if pyStartsWith func "server.files_" then
    getattrOn mk .files (pyDrop func ("server.files_".length))
  else
    .pyNone

/-- A dispatch request carrying only a tool name — `getFunc` reads nothing
but `tool["function"]["name"]`, exactly as the repository's own test
`test_Tools.py` passes `{"function": {"name": ...}}`. -/
def mkNamedTool (s : String) : Tool :=
  { type := "function"
    function :=
    { name := s
      description := ""
      parameters :=
      { type := "object"
        properties := []
        required := []
        additionalProperties := false }
      strict := true } }

/-! ### The concrete wrapped object graph of this repository

Method lists are in class declaration order; `sortMembers` models the
alphabetical order `inspect.getmembers` imposes. `__init__` is a bound
method and so appears in the getmembers list; the underscore filter of
`_add_class_methods` skips it. Docstrings are the exact `__doc__` values of
src/moonraker/_PrinterRequests.py and src/moonraker/_ServerRequests.py.
Annotation tags are the `__name__`s the annotations carry on CPython 3.11
(`str`, `bool`, `int`; `typing.List[str].__name__` is `"List"`).
-/

def printerMethods : List Method := [
  { name := "__init__",
    doc := some "Initialize PrinterRequests with a formatted URL.\n\n        Args:\n            url (str): URL of the Moonraker API endpoint. Will be formatted to end\n                with \"/printer/\" if it doesn't already.\n        ",
    params := [{ name := "url", annot := .named "str", hasDefault := false }] },
  { name := "info",
    doc := some "Retrieve printer information.\n\n        Returns:\n            Optional[Dict]: A dictionary containing information about the printer, or None if an error occurs.\n        ",
    params := [] },
  { name := "emergencyStop",
    doc := some "Trigger an emergency stop on the printer.\n\n        Returns:\n            Optional[Dict]: A dictionary containing the result of the command, or None if an error occurs.\n        ",
    params := [] },
  { name := "hostRestart",
    doc := some "Restart the host machine.\n\n        Returns:\n            Optional[Dict]: A dictionary containing the result of the command, or None if an error occurs.\n        ",
    params := [] },
  { name := "firmwareRestart",
    doc := some "Restart the printer firmware.\n\n        Returns:\n            Optional[Dict]: A dictionary containing the result of the command, or None if an error occurs.\n        ",
    params := [] },
  { name := "listObjects",
    doc := some "List all objects available on the printer.\n\n        Returns:\n            Optional[List[Dict]]: A list of dictionaries containing information about the objects, or None if an error occurs.\n        ",
    params := [] },
  { name := "runGCode",
    doc := some "Execute a G-code command on the printer.\n\n        Args:\n            gcode (str): The G-code command to run.\n\n        Returns:\n            Optional[Dict]: A dictionary containing the result of the command, or None if an error occurs.\n        ",
    params := [{ name := "gcode", annot := .named "str", hasDefault := false }] },
  { name := "getGCodeHelp",
    doc := some "Get help information for G-code commands.\n\n        Returns:\n            Optional[Dict]: A dictionary containing help information for G-code commands, or None if an error occurs.\n        ",
    params := [] },
  { name := "startPrint",
    doc := some "Start printing a file.\n\n        Args:\n            file (str): The name of the file to print.\n\n        Returns:\n            bool: True if the print was successfully started, False otherwise.\n        ",
    params := [{ name := "file", annot := .named "str", hasDefault := false }] },
  { name := "pausePrint",
    doc := some "Pause the ongoing print.\n\n        Returns:\n            bool: True if the print was successfully paused, False otherwise.\n        ",
    params := [] },
  { name := "continuePrint",
    doc := some "Resume the paused print.\n\n        Returns:\n            bool: True if the print was successfully resumed, False otherwise.\n        ",
    params := [] },
  { name := "cancelPrint",
    doc := some "Cancel the ongoing print.\n\n        Returns:\n            bool: True if the print was successfully canceled, False otherwise.\n        ",
    params := [] }
]

def serverMethods : List Method := [
  { name := "__init__",
    doc := some "Initialize ServerRequests with a formatted URL.\n\n        Args:\n            url (str): URL of the Moonraker API endpoint. Will be formatted to end\n                with \"/server/\" if it doesn't already.\n        ",
    params := [{ name := "url", annot := .named "str", hasDefault := false }] },
  { name := "info",
    doc := some "Retrieve server information.\n\n        Returns:\n            Optional[Dict]: A dictionary containing information about the server, or None if an error occurs.\n        ",
    params := [] },
  { name := "config",
    doc := some "Retrieve server configuration.\n\n        Returns:\n            Optional[Dict]: A dictionary containing configuration information about the server, or None if an error occurs.\n        ",
    params := [] },
  { name := "temperature",
    doc := some "Retrieve temperature information about the server.\n\n        Args:\n            include_monitor (bool): Whether to include monitor information. Defaults to False.\n\n        Returns:\n            Optional[Dict]: A dictionary containing temperature information about the server, or None if an error occurs.\n        ",
    params := [{ name := "include_monitor", annot := .named "bool", hasDefault := true }] },
  { name := "cached_gcode",
    doc := some "Retrieve a cached list of gcode files.\n\n        Args:\n            count (int): The number of gcode files to retrieve. Defaults to 100.\n\n        Returns:\n            Optional[Dict]: A dictionary containing information about the gcode files, or None if an error occurs.\n        ",
    params := [{ name := "count", annot := .named "int", hasDefault := true }] },
  { name := "restart_server",
    doc := some "Restart the server.\n\n        Returns:\n            Optional[Dict]: A dictionary containing the result of the command, or None if an error occurs.\n        ",
    params := [] }
]

def filesMethods : List Method := [
  { name := "__init__",
    doc := some "Initialize _Files with a formatted URL.\n\n            Args:\n                url (str): URL of the Moonraker API endpoint. Will be formatted to end\n                    with \"/files/\" if it doesn't already.\n            ",
    params := [{ name := "url", annot := .named "str", hasDefault := false }] },
  { name := "get_roots",
    doc := some "Retrieve a list of root directories.\n\n            Returns:\n                Optional[List[str]]: A list of root directories, or None if an error occurs.\n            ",
    params := [] },
  { name := "get_gcodes",
    doc := some "Retrieve a list of gcode files.\n\n            Returns:\n                Optional[List[Dict]]: A list of dictionaries containing information about the gcode files, or None if an error occurs.\n            ",
    params := [] },
  { name := "get_gcode_metadata",
    doc := some "Retrieve metadata about a gcode file.\n\n            Args:\n                file_name (str): The name of the gcode file.\n\n            Returns:\n                Optional[Dict]: A dictionary containing metadata about the gcode file, or None if an error occurs.\n            ",
    params := [{ name := "file_name", annot := .named "str", hasDefault := false }] },
  { name := "scan_gcode_metadata",
    doc := some "Scan a gcode file for metadata.\n\n            Args:\n                file_name (str): The name of the gcode file.\n\n            Returns:\n                Optional[Dict]: A dictionary containing metadata about the gcode file, or None if an error occurs.\n            ",
    params := [{ name := "file_name", annot := .named "str", hasDefault := false }] },
  { name := "get_gcode_thumbnail",
    doc := some "Retrieve a thumbnail for a gcode file.\n\n            Args:\n                file_name (str): The name of the gcode file.\n\n            Returns:\n                Optional[Dict]: A dictionary containing a thumbnail for the gcode file, or None if an error occurs.\n            ",
    params := [{ name := "file_name", annot := .named "str", hasDefault := false }] },
  { name := "get_directory",
    doc := some "Retrieve a list of files in a directory.\n\n            Args:\n                path (str): The path of the directory.\n                extended (bool): Whether to return extended information. Defaults to False.\n\n            Returns:\n                Optional[List[Dict]]: A list of dictionaries containing information about the files, or None if an error occurs.\n            ",
    params := [{ name := "path", annot := .named "str", hasDefault := false },
      { name := "extended", annot := .named "bool", hasDefault := true }] },
  { name := "create_directory",
    doc := some "Create a directory.\n\n            Args:\n                path (str): The path of the directory to create.\n\n            Returns:\n                Optional[Dict]: A dictionary containing the result of the command, or None if an error occurs.\n            ",
    params := [{ name := "path", annot := .named "str", hasDefault := false }] },
  { name := "delete_directory",
    doc := some "Delete a directory.\n\n            Args:\n                path (str): The path of the directory to delete.\n                forced (bool): Whether to force deletion. Defaults to False.\n\n            Returns:\n                Optional[Dict]: A dictionary containing the result of the command, or None if an error occurs.\n            ",
    params := [{ name := "path", annot := .named "str", hasDefault := false },
      { name := "forced", annot := .named "bool", hasDefault := true }] },
  { name := "move_file",
    doc := some "Move a file.\n\n            Args:\n                source (str): The source path of the file.\n                destination (str): The destination path of the file.\n\n            Returns:\n                Optional[Dict]: A dictionary containing the result of the command, or None if an error occurs.\n            ",
    params := [{ name := "source", annot := .named "str", hasDefault := false },
      { name := "destination", annot := .named "str", hasDefault := false }] },
  { name := "copy_file",
    doc := some "Copy a file.\n\n            Args:\n                source (str): The source path of the file.\n                destination (str): The destination path of the file.\n\n            Returns:\n                Optional[Dict]: A dictionary containing the result of the command, or None if an error occurs.\n            ",
    params := [{ name := "source", annot := .named "str", hasDefault := false },
      { name := "destination", annot := .named "str", hasDefault := false }] },
  { name := "create_zip",
    doc := some "Create a zip file.\n\n            Args:\n                dest (str): The destination path of the zip file.\n                files (List[str]): A list of files to include in the zip file.\n                store_only (bool): Whether to store the zip file only. Defaults to False.\n\n            Returns:\n                Optional[Dict]: A dictionary containing the result of the command, or None if an error occurs.\n            ",
    params := [{ name := "dest", annot := .named "str", hasDefault := false },
      { name := "files", annot := .named "List", hasDefault := false },
      { name := "store_only", annot := .named "bool", hasDefault := true }] },
  { name := "download_file",
    doc := some "Download a file.\n\n            Args:\n                file_path (str): The path of the file to download.\n\n            Returns:\n                Optional[bytes]: The contents of the file, or None if an error occurs.\n            ",
    params := [{ name := "file_path", annot := .named "str", hasDefault := false }] },
  { name := "upload_file",
    doc := some "Upload a file.\n\n            Args:\n                url (str): The URL of the API endpoint.\n                file_path (str): The path of the file to upload.\n                root (str): The root directory of the file. Defaults to 'gcodes'.\n                path (str): The path of the file in the root directory. Defaults to None.\n                checksum (str): The checksum of the file. Defaults to None.\n                print_file (bool): Whether to print the file after upload. Defaults to False.\n\n            Returns:\n                Optional[Dict]: A dictionary containing the result of the command, or None if an error occurs.\n            ",
    params := [{ name := "url", annot := .named "str", hasDefault := false },
      { name := "file_path", annot := .named "str", hasDefault := false },
      { name := "root", annot := .named "str", hasDefault := true },
      { name := "path", annot := .named "str", hasDefault := true },
      { name := "checksum", annot := .named "str", hasDefault := true },
      { name := "print_file", annot := .named "bool", hasDefault := true }] },
  { name := "file_delete",
    doc := some "Delete a file.\n\n            Args:\n                file_path (str): The path of the file to delete.\n\n            Returns:\n                Optional[Dict]: A dictionary containing the result of the command, or None if an error occurs.\n            ",
    params := [{ name := "file_path", annot := .named "str", hasDefault := false }] }
]


/-- The `PrinterRequests` instance at `moonraker.printer`: its non-method
instance attribute is `url`. -/
def printerObj : PyObj := { methods := printerMethods, attrs := ["url"] }

/-- The `ServerRequests` instance at `moonraker.server`: instance attributes
`url` and `files`, plus the nested class attribute `_Files`. -/
def serverObj : PyObj :=
  { methods := serverMethods, attrs := ["url", "files", "_Files"] }

/-- The `ServerRequests._Files` instance at `moonraker.server.files`. -/
def filesObj : PyObj := { methods := filesMethods, attrs := ["url"] }

/-- The object graph a `MoonrakerTools` instance holds. -/
def moonraker : MoonrakerModel :=
  { printer := printerObj, server := serverObj, files := filesObj }

/-! ### Facts about the string primitives -/

theorem string_data_inj {a b : String} (h : a.data = b.data) : a = b := by
  cases a
  cases b
  cases h
  rfl

theorem data_append (a b : String) : (a ++ b).data = a.data ++ b.data := rfl

theorem append_left_cancel {p a b : String} (h : p ++ a = p ++ b) : a = b := by
  have hd := congrArg String.data h
  rw [data_append, data_append] at hd
  exact string_data_inj (List.append_cancel_left hd)

theorem startsWith_printer_self (s : String) :
    pyStartsWith ("printer_" ++ s) "printer_" = true := rfl

theorem startsWith_server_self (s : String) :
    pyStartsWith ("server_" ++ s) "server_" = true := rfl

theorem startsWith_files_self (s : String) :
    pyStartsWith ("server.files_" ++ s) "server.files_" = true := rfl

theorem server_not_printer (s : String) :
    pyStartsWith ("server_" ++ s) "printer_" = false := rfl

theorem files_not_printer (s : String) :
    pyStartsWith ("server.files_" ++ s) "printer_" = false := rfl

theorem files_not_server (s : String) :
    pyStartsWith ("server.files_" ++ s) "server_" = false := rfl

theorem drop_printer (s : String) :
    pyDrop ("printer_" ++ s) ("printer_".length) = s := rfl

theorem drop_server (s : String) :
    pyDrop ("server_" ++ s) ("server_".length) = s := rfl

theorem drop_files (s : String) :
    pyDrop ("server.files_" ++ s) ("server.files_".length) = s := rfl

theorem printer_flat_ne_server_flat (a b : String) :
    "printer_" ++ a ≠ "server_" ++ b := by
  intro h
  have h0 : some (Char.ofNat 112) = some (Char.ofNat 115) :=
    congrArg (fun t => t.data.head?) h
  exact absurd h0 (by decide)

theorem printer_flat_ne_files_flat (a b : String) :
    "printer_" ++ a ≠ "server.files_" ++ b := by
  intro h
  have h0 : some (Char.ofNat 112) = some (Char.ofNat 115) :=
    congrArg (fun t => t.data.head?) h
  exact absurd h0 (by decide)

theorem server_flat_ne_files_flat (a b : String) :
    "server_" ++ a ≠ "server.files_" ++ b := by
  intro h
  have h6 : some (Char.ofNat 95) = some (Char.ofNat 46) :=
    congrArg (fun t => (t.data.drop 6).head?) h
  exact absurd h6 (by decide)

/-- Two prefixes of a common string are comparable: one is a prefix of the
other. -/
theorem isPfx_comm_of_common :
    ∀ (a b s : List Char), isPfx a s = true → isPfx b s = true →
      isPfx a b = true ∨ isPfx b a = true := by
  intro a b s
  induction s generalizing a b with
  | nil =>
    intro ha _
    cases a with
    | nil => exact Or.inl rfl
    | cons x xs => simp [isPfx] at ha
  | cons c cs ih =>
    intro ha hb
    cases a with
    | nil => exact Or.inl rfl
    | cons x xs =>
      cases b with
      | nil => exact Or.inr rfl
      | cons y ys =>
        simp only [isPfx, Bool.and_eq_true, beq_iff_eq] at ha hb
        rcases ih xs ys ha.2 hb.2 with h | h
        · exact Or.inl (by simp [isPfx, ha.1, hb.1, h])
        · exact Or.inr (by simp [isPfx, ha.1, hb.1, h])

theorem not_printer_of_server {s : String}
    (h : pyStartsWith s "server_" = true) :
    pyStartsWith s "printer_" = false := by
  by_contra hc
  rw [Bool.not_eq_false] at hc
  rcases isPfx_comm_of_common _ _ _ h hc with h2 | h2 <;> exact absurd h2 (by decide)

theorem not_printer_of_files {s : String}
    (h : pyStartsWith s "server.files_" = true) :
    pyStartsWith s "printer_" = false := by
  by_contra hc
  rw [Bool.not_eq_false] at hc
  rcases isPfx_comm_of_common _ _ _ h hc with h2 | h2 <;> exact absurd h2 (by decide)

theorem not_server_of_files {s : String}
    (h : pyStartsWith s "server.files_" = true) :
    pyStartsWith s "server_" = false := by
  by_contra hc
  rw [Bool.not_eq_false] at hc
  rcases isPfx_comm_of_common _ _ _ h hc with h2 | h2 <;> exact absurd h2 (by decide)

/-! ### Facts about the compiler and dispatcher -/

/-- Membership is unchanged by the getmembers sort. -/
theorem mem_sortMembers {m : Method} {l : List Method} :
    m ∈ sortMembers l ↔ m ∈ l := by
  unfold sortMembers
  exact List.mem_insertionSort _

/-- The getmembers sort is a permutation of the declaration-order list. -/
theorem sortMembers_perm (l : List Method) : List.Perm (sortMembers l) l :=
  List.perm_insertionSort _ l

/-- With pairwise-distinct member names, `find?` by name retrieves exactly
the member looked for. -/
theorem find?_name_of_nodup {l : List Method}
    (hn : (l.map Method.name).Nodup) {m : Method} (hm : m ∈ l) :
    l.find? (fun q => q.name == m.name) = some m := by
  induction l with
  | nil => cases hm
  | cons a as ih =>
    rw [List.map_cons, List.nodup_cons] at hn
    rcases List.mem_cons.mp hm with rfl | hmem
    · rw [List.find?_cons_of_pos _ (by simp)]
    · have hne : a.name ≠ m.name := by
        intro he
        exact hn.1 (he ▸ List.mem_map_of_mem Method.name hmem)
      rw [List.find?_cons_of_neg _ (by simp [hne])]
      exact ih hn.2 hmem

/-- The flat names a filterMap over members emits. -/
theorem names_filterMap (pre : String) (l : List Method) :
    (l.filterMap
        (fun m => if pyStartsWith m.name "_" then none
                  else some (mkTool pre m))).map (fun t => t.function.name) =
      (l.filter (fun m => !pyStartsWith m.name "_")).map
        (fun m => pre ++ m.name) := by
  induction l with
  | nil => rfl
  | cons a as ih =>
    by_cases h : pyStartsWith a.name "_" = true
    · simp only [List.filterMap_cons, List.filter_cons, h, if_true,
        Bool.not_true, Bool.false_eq_true, if_false]
      exact ih
    · rw [Bool.not_eq_true] at h
      simp only [List.filterMap_cons, List.filter_cons, h, Bool.false_eq_true,
        if_false, Bool.not_false, if_true, List.map_cons]
      exact congrArg _ ih

/-- The flat names one `_add_class_methods` pass emits. -/
theorem names_addClassMethods (o : PyObj) (pre : String) :
    (addClassMethods o pre).map (fun t => t.function.name) =
      ((sortMembers o.methods).filter (fun m => !pyStartsWith m.name "_")).map
        (fun m => pre ++ m.name) :=
  names_filterMap pre (sortMembers o.methods)

/-- Dispatching the flat name compiled for a printer method returns that
very method, bound to the printer object. -/
theorem getFunc_mkTool_printer (mk : MoonrakerModel) (m : Method)
    (hn : (mk.printer.methods.map Method.name).Nodup)
    (hm : m ∈ mk.printer.methods) :
    getFunc mk (mkTool "printer_" m) = GetFuncResult.boundMethod .printer m := by
  show getattrOn mk .printer m.name = GetFuncResult.boundMethod .printer m
  unfold getattrOn
  rw [show lookupMethod (ownerObj mk .printer) m.name = some m from
    find?_name_of_nodup hn hm]

/-- Dispatching the flat name compiled for a server method returns that very
method, bound to the server object. -/
theorem getFunc_mkTool_server (mk : MoonrakerModel) (m : Method)
    (hn : (mk.server.methods.map Method.name).Nodup)
    (hm : m ∈ mk.server.methods) :
    getFunc mk (mkTool "server_" m) = GetFuncResult.boundMethod .server m := by
  show getattrOn mk .server m.name = GetFuncResult.boundMethod .server m
  unfold getattrOn
  rw [show lookupMethod (ownerObj mk .server) m.name = some m from
    find?_name_of_nodup hn hm]

/-- Dispatching the flat name compiled for a `server.files` method returns
that very method, bound to the files object. -/
theorem getFunc_mkTool_files (mk : MoonrakerModel) (m : Method)
    (hn : (mk.files.methods.map Method.name).Nodup)
    (hm : m ∈ mk.files.methods) :
    getFunc mk (mkTool "server.files_" m) = GetFuncResult.boundMethod .files m := by
  show getattrOn mk .files m.name = GetFuncResult.boundMethod .files m
  unfold getattrOn
  rw [show lookupMethod (ownerObj mk .files) m.name = some m from
    find?_name_of_nodup hn hm]

/-- C1: for every tool descriptor `d` in the catalog returned by
`get_tools`, resolving `d` with `getFunc` returns exactly the bound method
of the printer, server, or server.files object from which `d` was compiled
(stated for any object graph whose per-object method names are distinct,
as the repository's are). -/
theorem c1_roundtrip (mk : MoonrakerModel)
    (hp : (mk.printer.methods.map Method.name).Nodup)
    (hs : (mk.server.methods.map Method.name).Nodup)
    (hf : (mk.files.methods.map Method.name).Nodup) :
    ∀ d ∈ get_tools mk, ∃ (o : Owner) (m : Method),
      m ∈ (ownerObj mk o).methods ∧ d = mkTool (ownerPre o) m ∧
      getFunc mk d = GetFuncResult.boundMethod o m := by
  intro d hd
  rw [get_tools, List.mem_append, List.mem_append] at hd
  rcases hd with (hd | hd) | hd
  · rw [addClassMethods] at hd
    obtain ⟨m, hm, hif⟩ := List.mem_filterMap.mp hd
    by_cases hpub : pyStartsWith m.name "_" = true
    · rw [if_pos hpub] at hif
      cases hif
    · rw [if_neg hpub] at hif
      injection hif with hif
      subst hif
      exact ⟨.printer, m, mem_sortMembers.mp hm, rfl,
        getFunc_mkTool_printer mk m hp (mem_sortMembers.mp hm)⟩
  · rw [addClassMethods] at hd
    obtain ⟨m, hm, hif⟩ := List.mem_filterMap.mp hd
    by_cases hpub : pyStartsWith m.name "_" = true
    · rw [if_pos hpub] at hif
      cases hif
    · rw [if_neg hpub] at hif
      injection hif with hif
      subst hif
      exact ⟨.server, m, mem_sortMembers.mp hm, rfl,
        getFunc_mkTool_server mk m hs (mem_sortMembers.mp hm)⟩
  · rw [addClassMethods] at hd
    obtain ⟨m, hm, hif⟩ := List.mem_filterMap.mp hd
    by_cases hpub : pyStartsWith m.name "_" = true
    · rw [if_pos hpub] at hif
      cases hif
    · rw [if_neg hpub] at hif
      injection hif with hif
      subst hif
      exact ⟨.files, m, mem_sortMembers.mp hm, rfl,
        getFunc_mkTool_files mk m hf (mem_sortMembers.mp hm)⟩

/-- The first descriptor of the concrete catalog, used to instantiate the
round-trip theorem. -/
def headTool : Tool := (get_tools moonraker).head (by decide)

/-- Witness for C1: the round-trip theorem applied to the concrete
repository graph and the catalog's first descriptor. -/
theorem c1_roundtrip_witness :
    ∃ (o : Owner) (m : Method),
      m ∈ (ownerObj moonraker o).methods ∧ headTool = mkTool (ownerPre o) m ∧
      getFunc moonraker headTool = GetFuncResult.boundMethod o m :=
  c1_roundtrip moonraker (by decide) (by decide) (by decide) headTool
    (List.head_mem _)

/-- C2: resolving the flat name `server.files_get_roots` selects the
`server.files` object (the attribute lookup runs on the files object and
returns its `get_roots` bound method); the shallower `server_` prefix does
not even string-match this name, because its seventh character is `.`
rather than `_`. -/
theorem c2_server_files_resolution :
    getFunc moonraker (mkNamedTool "server.files_get_roots") =
        getattrOn moonraker .files "get_roots" ∧
      (∃ m, lookupMethod filesObj "get_roots" = some m ∧ m.name = "get_roots" ∧
        getFunc moonraker (mkNamedTool "server.files_get_roots") =
          GetFuncResult.boundMethod .files m) ∧
      pyStartsWith "server.files_get_roots" "server_" = false :=
  ⟨rfl, ⟨_, rfl, rfl, rfl⟩, rfl⟩

/-- One compile pass emits pairwise-distinct flat names when the object's
method names are pairwise distinct. -/
theorem nodup_names_addClassMethods (o : PyObj) (pre : String)
    (hn : (o.methods.map Method.name).Nodup) :
    ((addClassMethods o pre).map (fun t => t.function.name)).Nodup := by
  rw [names_addClassMethods]
  have hsorted : ((sortMembers o.methods).map Method.name).Nodup :=
    ((sortMembers_perm o.methods).map Method.name).nodup_iff.mpr hn
  have hfiltered :
      (((sortMembers o.methods).filter
          (fun m => !pyStartsWith m.name "_")).map Method.name).Nodup :=
    hsorted.sublist ((List.filter_sublist _).map Method.name)
  have hrw : ((sortMembers o.methods).filter
        (fun m => !pyStartsWith m.name "_")).map (fun m => pre ++ m.name) =
      (((sortMembers o.methods).filter
        (fun m => !pyStartsWith m.name "_")).map Method.name).map
          (fun n => pre ++ n) := by
    rw [List.map_map]
    rfl
  rw [hrw]
  exact hfiltered.map (fun x y h => append_left_cancel h)

/-- Every flat name one pass emits carries that pass's prefix. -/
theorem names_addClassMethods_shape (o : PyObj) (pre : String) (x : String)
    (hx : x ∈ (addClassMethods o pre).map (fun t => t.function.name)) :
    ∃ n : String, x = pre ++ n := by
  rw [names_addClassMethods] at hx
  obtain ⟨m, _, hm⟩ := List.mem_map.mp hx
  exact ⟨m.name, hm.symm⟩

/-- C3: for any object graph satisfying the naming invariants (method names
unique within each of the printer, server, and server.files objects), the
catalog returned by `get_tools` has pairwise-distinct flat names. -/
theorem c3_flat_names_nodup (mk : MoonrakerModel)
    (hp : (mk.printer.methods.map Method.name).Nodup)
    (hs : (mk.server.methods.map Method.name).Nodup)
    (hf : (mk.files.methods.map Method.name).Nodup) :
    ((get_tools mk).map (fun t => t.function.name)).Nodup := by
  rw [get_tools, List.map_append, List.map_append]
  refine ((nodup_names_addClassMethods mk.printer "printer_" hp).append
      (nodup_names_addClassMethods mk.server "server_" hs) ?_).append
    (nodup_names_addClassMethods mk.files "server.files_" hf) ?_
  · intro x hx hy
    obtain ⟨b, hb⟩ := names_addClassMethods_shape mk.server "server_" x hy
    obtain ⟨a, rfl⟩ := names_addClassMethods_shape mk.printer "printer_" x hx
    exact printer_flat_ne_server_flat a b hb
  · intro x hx hy
    obtain ⟨b, hb⟩ := names_addClassMethods_shape mk.files "server.files_" x hy
    rcases List.mem_append.mp hx with hx | hx
    · obtain ⟨a, rfl⟩ := names_addClassMethods_shape mk.printer "printer_" x hx
      exact printer_flat_ne_files_flat a b hb
    · obtain ⟨a, rfl⟩ := names_addClassMethods_shape mk.server "server_" x hx
      exact server_flat_ne_files_flat a b hb

/-- Witness for C3: the concrete catalog's flat names are pairwise
distinct (the three concrete method-name lists are duplicate-free). -/
theorem c3_flat_names_nodup_witness :
    ((get_tools moonraker).map (fun t => t.function.name)).Nodup :=
  c3_flat_names_nodup moonraker (by decide) (by decide) (by decide)

/-- An operation shaped as the specification's concrete scenario demands:
`run_gcode(gcode)` with no default and no declared type for `gcode`. -/
def run_gcode_untyped : Method :=
  { name := "run_gcode", doc := none,
    params := [{ name := "gcode", annot := AnnTag.empty, hasDefault := false }] }

/-- C4, evaluated at the failing input: compiling an operation whose
parameter `gcode` carries no type annotation emits schema type `"_empty"`
(the `__name__` of the class `inspect._empty` behind
`inspect.Parameter.empty`), not `"string"` — the `getattr` default
`'string'` of Tools.py line 37 never fires for unannotated parameters. The
repository's own `runGCode` is annotated `gcode: str` and hence gets tag
`"str"`, so no descriptor of the concrete catalog carries `"string"`
either. -/
theorem c4_unannotated_type_tag :
    (mkTool "printer_" run_gcode_untyped).function.parameters.properties =
        [("gcode", { type := "_empty", description := "Parameter gcode" })] ∧
      (mkTool "printer_" run_gcode_untyped).function.parameters.required =
        ["gcode"] ∧
      ((get_tools moonraker).find?
          (fun t => t.function.name == "printer_runGCode")).map
          (fun t => t.function.parameters.properties) =
        some [("gcode", { type := "str", description := "Parameter gcode" })] ∧
      annotTypeTag AnnTag.empty ≠ "string" :=
  ⟨rfl, rfl, by decide, by decide⟩

/-- C5, counterexample: resolving `nonexistent_tool` does not fail — every
`startswith` branch of `getFunc` misses, and the Python function falls off
its end, returning the value `None` to the caller; no `UnknownTool` error
exists anywhere in the code. -/
theorem c5_unknown_name_counterexample :
    getFunc moonraker (mkNamedTool "nonexistent_tool") = GetFuncResult.pyNone :=
  rfl

/-- C5, amended: any requested name that matches none of the three prefixes
makes `getFunc` return `None` (it does not raise). -/
theorem c5_unknown_name_returns_none (mk : MoonrakerModel) (s : String)
    (h1 : pyStartsWith s "printer_" = false)
    (h2 : pyStartsWith s "server_" = false)
    (h3 : pyStartsWith s "server.files_" = false) :
    getFunc mk (mkNamedTool s) = GetFuncResult.pyNone := by
  show (if pyStartsWith s "printer_" = true then
      getattrOn mk .printer (pyDrop s ("printer_".length))
    else if pyStartsWith s "server_" = true then
      getattrOn mk .server (pyDrop s ("server_".length))
    else if pyStartsWith s "server.files_" = true then
      getattrOn mk .files (pyDrop s ("server.files_".length))
    else GetFuncResult.pyNone) = GetFuncResult.pyNone
  rw [h1, h2, h3]
  rfl

/-- Witness for C5's amended statement, at the spec's concrete scenario. -/
theorem c5_unknown_name_returns_none_witness :
    getFunc moonraker (mkNamedTool "nonexistent_tool") = GetFuncResult.pyNone :=
  c5_unknown_name_returns_none moonraker "nonexistent_tool" rfl rfl rfl

set_option maxRecDepth 100000 in
/-- C6, counterexample: the catalog descriptor for `printer_info` carries a
description that differs from the operation's documentation (even after
sentinel-filling): line 30 of Tools.py strips every run of twelve spaces
from the docstring before storing it, so the copy is not unmodified. -/
theorem c6_description_counterexample :
    (((get_tools moonraker).find?
        (fun t => t.function.name == "printer_info")).map
        (fun t => t.function.description)).isSome = true ∧
      ((get_tools moonraker).find?
          (fun t => t.function.name == "printer_info")).map
          (fun t => t.function.description) ≠
        (printerMethods.find? (fun m => m.name == "info")).map
          (fun m => docOr m.doc) :=
  ⟨rfl, by decide⟩

/-- C6, amended: every compiled descriptor's description equals the
operation's documentation (sentinel-filled when missing or empty) with
every occurrence of twelve consecutive spaces removed. -/
theorem c6_description_stripped (o : PyObj) (pre : String) :
    ∀ t ∈ addClassMethods o pre, ∃ m, m ∈ o.methods ∧
      t.function.name = pre ++ m.name ∧
      t.function.description = pyRemove (docOr m.doc) twelveSpaces := by
  intro t ht
  rw [addClassMethods] at ht
  obtain ⟨m, hm, hif⟩ := List.mem_filterMap.mp ht
  by_cases hpub : pyStartsWith m.name "_" = true
  · rw [if_pos hpub] at hif
    cases hif
  · rw [if_neg hpub] at hif
    injection hif with hif
    subst hif
    exact ⟨m, mem_sortMembers.mp hm, rfl, rfl⟩

/-- A small operation whose docstring holds a twelve-space indent, to
instantiate the description theorem. -/
def wDocMethod : Method :=
  { name := "op", doc := some "Line one.\n            Line two.", params := [] }

/-- The object owning `wDocMethod`. -/
def wDocObj : PyObj := { methods := [wDocMethod], attrs := [] }

/-- Witness for C6's amended statement. -/
theorem c6_description_stripped_witness :
    ∃ m, m ∈ wDocObj.methods ∧
      (mkTool "p_" wDocMethod).function.name = "p_" ++ m.name ∧
      (mkTool "p_" wDocMethod).function.description =
        pyRemove (docOr m.doc) twelveSpaces :=
  c6_description_stripped wDocObj "p_" (mkTool "p_" wDocMethod) (by decide)

/-- The `required` list a descriptor carries, unfolded. -/
theorem mkTool_required (pre : String) (m : Method) :
    (mkTool pre m).function.parameters.required =
      (m.params.filter (fun q => q.name != "self" && !q.hasDefault)).map
        Param.name := rfl

/-- The `properties` list a descriptor carries, unfolded. -/
theorem mkTool_properties (pre : String) (m : Method) :
    (mkTool pre m).function.parameters.properties =
      (m.params.filter (fun q => q.name != "self")).map
        (fun p => (p.name,
          { type := annotTypeTag p.annot
            description := "Parameter " ++ p.name })) := rfl

/-- C7: in every compiled descriptor, a non-receiver parameter with a
default value is absent from `required`, one without a default is present,
and a receiver parameter named `self` appears neither among the properties
nor in `required` (stated for any operation whose parameter names are
pairwise distinct). -/
theorem c7_required_set (pre : String) (m : Method)
    (hnd : (m.params.map Param.name).Nodup) :
    (∀ p ∈ m.params, p.name ≠ "self" →
      ((p.hasDefault = true →
          p.name ∉ (mkTool pre m).function.parameters.required) ∧
        (p.hasDefault = false →
          p.name ∈ (mkTool pre m).function.parameters.required))) ∧
      (∀ pr ∈ (mkTool pre m).function.parameters.properties,
        pr.1 ≠ "self") ∧
      "self" ∉ (mkTool pre m).function.parameters.required := by
  refine ⟨?_, ?_, ?_⟩
  · intro p hp hself
    constructor
    · intro hdef hmem
      rw [mkTool_required] at hmem
      obtain ⟨q, hqf, hqname⟩ := List.mem_map.mp hmem
      have hq := List.mem_filter.mp hqf
      have hqp : q = p := List.inj_on_of_nodup_map hnd hq.1 hp hqname
      have h2 := hq.2
      rw [Bool.and_eq_true] at h2
      have h3 := h2.2
      rw [hqp, Bool.not_eq_true', hdef] at h3
      cases h3
    · intro hdef
      rw [mkTool_required]
      refine List.mem_map.mpr ⟨p, List.mem_filter.mpr ⟨hp, ?_⟩, rfl⟩
      rw [Bool.and_eq_true, bne_iff_ne, Bool.not_eq_true', hdef]
      exact ⟨hself, rfl⟩
  · intro pr hpr
    rw [mkTool_properties] at hpr
    obtain ⟨q, hqf, hq⟩ := List.mem_map.mp hpr
    subst hq
    exact bne_iff_ne.mp (List.mem_filter.mp hqf).2
  · intro hmem
    rw [mkTool_required] at hmem
    obtain ⟨q, hqf, hqname⟩ := List.mem_map.mp hmem
    have h1 := (List.mem_filter.mp hqf).2
    rw [Bool.and_eq_true] at h1
    exact bne_iff_ne.mp h1.1 hqname

/-- An operation with one required, one optional and one receiver
parameter, to instantiate the required-set theorem. -/
def wSigMethod : Method :=
  { name := "op", doc := none,
    params := [{ name := "self", annot := AnnTag.empty, hasDefault := false },
      { name := "a", annot := AnnTag.named "str", hasDefault := false },
      { name := "b", annot := AnnTag.named "int", hasDefault := true }] }

/-- Witness for C7. -/
theorem c7_required_set_witness :
    "a" ∈ (mkTool "printer_" wSigMethod).function.parameters.required ∧
      "b" ∉ (mkTool "printer_" wSigMethod).function.parameters.required ∧
      "self" ∉ (mkTool "printer_" wSigMethod).function.parameters.required := by
  have h := c7_required_set "printer_" wSigMethod (by decide)
  refine ⟨?_, ?_, h.2.2⟩
  · exact (h.1 { name := "a", annot := AnnTag.named "str", hasDefault := false }
      (by decide) (by decide)).2 rfl
  · exact (h.1 { name := "b", annot := AnnTag.named "int", hasDefault := true }
      (by decide) (by decide)).1 rfl

/-- C8: compiling is deterministic — two `get_tools` runs over the same
unchanged object graph yield catalogs equal in content and order (the
compile is a pure function of the graph). -/
theorem c8_deterministic (m1 m2 : MoonrakerModel) (h : m1 = m2) :
    get_tools m1 = get_tools m2 := by
  rw [h]

/-- Witness for C8: two runs over the concrete repository graph agree. -/
theorem c8_deterministic_witness :
    get_tools moonraker = get_tools moonraker :=
  c8_deterministic moonraker moonraker rfl

/-- A `getattr` that finds neither a method nor an attribute raises
`AttributeError`. -/
theorem getattrOn_missing (mk : MoonrakerModel) (o : Owner) (n : String)
    (h2 : lookupMethod (ownerObj mk o) n = none)
    (h3 : n ∉ (ownerObj mk o).attrs) :
    getattrOn mk o n = GetFuncResult.attrError n := by
  unfold getattrOn
  rw [h2, if_neg h3]

/-- A name matching `printer_` dispatches to the printer object. -/
theorem getFunc_branch_printer (mk : MoonrakerModel) (s : String)
    (h1 : pyStartsWith s "printer_" = true) :
    getFunc mk (mkNamedTool s) =
      getattrOn mk .printer (pyDrop s ("printer_".length)) := by
  show (if pyStartsWith s "printer_" = true then
      getattrOn mk .printer (pyDrop s ("printer_".length))
    else if pyStartsWith s "server_" = true then
      getattrOn mk .server (pyDrop s ("server_".length))
    else if pyStartsWith s "server.files_" = true then
      getattrOn mk .files (pyDrop s ("server.files_".length))
    else GetFuncResult.pyNone) =
      getattrOn mk .printer (pyDrop s ("printer_".length))
  rw [if_pos h1]

/-- A name matching `server_` dispatches to the server object (such a name
can never also match `printer_`). -/
theorem getFunc_branch_server (mk : MoonrakerModel) (s : String)
    (h1 : pyStartsWith s "server_" = true) :
    getFunc mk (mkNamedTool s) =
      getattrOn mk .server (pyDrop s ("server_".length)) := by
  show (if pyStartsWith s "printer_" = true then
      getattrOn mk .printer (pyDrop s ("printer_".length))
    else if pyStartsWith s "server_" = true then
      getattrOn mk .server (pyDrop s ("server_".length))
    else if pyStartsWith s "server.files_" = true then
      getattrOn mk .files (pyDrop s ("server.files_".length))
    else GetFuncResult.pyNone) =
      getattrOn mk .server (pyDrop s ("server_".length))
  rw [not_printer_of_server h1, if_neg Bool.false_ne_true, if_pos h1]

/-- A name matching `server.files_` dispatches to the files object (such a
name matches neither `printer_` nor `server_`). -/
theorem getFunc_branch_files (mk : MoonrakerModel) (s : String)
    (h1 : pyStartsWith s "server.files_" = true) :
    getFunc mk (mkNamedTool s) =
      getattrOn mk .files (pyDrop s ("server.files_".length)) := by
  show (if pyStartsWith s "printer_" = true then
      getattrOn mk .printer (pyDrop s ("printer_".length))
    else if pyStartsWith s "server_" = true then
      getattrOn mk .server (pyDrop s ("server_".length))
    else if pyStartsWith s "server.files_" = true then
      getattrOn mk .files (pyDrop s ("server.files_".length))
    else GetFuncResult.pyNone) =
      getattrOn mk .files (pyDrop s ("server.files_".length))
  rw [not_printer_of_files h1, not_server_of_files h1,
    if_neg Bool.false_ne_true, if_neg Bool.false_ne_true, if_pos h1]

/-- C9: when the requested name carries one of the three prefixes but the
remainder names neither a method nor another attribute of the
corresponding object, `getFunc` ends in the `AttributeError` that
`getattr` raises, not in a return value or a dedicated dispatch error. -/
theorem c9_attribute_error (mk : MoonrakerModel) (s : String) :
    (pyStartsWith s "printer_" = true →
      lookupMethod mk.printer (pyDrop s ("printer_".length)) = none →
      pyDrop s ("printer_".length) ∉ mk.printer.attrs →
      getFunc mk (mkNamedTool s) =
        GetFuncResult.attrError (pyDrop s ("printer_".length))) ∧
    (pyStartsWith s "server_" = true →
      lookupMethod mk.server (pyDrop s ("server_".length)) = none →
      pyDrop s ("server_".length) ∉ mk.server.attrs →
      getFunc mk (mkNamedTool s) =
        GetFuncResult.attrError (pyDrop s ("server_".length))) ∧
    (pyStartsWith s "server.files_" = true →
      lookupMethod mk.files (pyDrop s ("server.files_".length)) = none →
      pyDrop s ("server.files_".length) ∉ mk.files.attrs →
      getFunc mk (mkNamedTool s) =
        GetFuncResult.attrError (pyDrop s ("server.files_".length))) := by
  refine ⟨?_, ?_, ?_⟩
  · intro h1 h2 h3
    rw [getFunc_branch_printer mk s h1]
    exact getattrOn_missing mk .printer _ h2 h3
  · intro h1 h2 h3
    rw [getFunc_branch_server mk s h1]
    exact getattrOn_missing mk .server _ h2 h3
  · intro h1 h2 h3
    rw [getFunc_branch_files mk s h1]
    exact getattrOn_missing mk .files _ h2 h3

/-- Witness for C9: `printer_nonexistent` strips to `nonexistent`, which
the printer object does not have. -/
theorem c9_attribute_error_witness :
    getFunc moonraker (mkNamedTool "printer_nonexistent") =
      GetFuncResult.attrError "nonexistent" :=
  (c9_attribute_error moonraker "printer_nonexistent").1 rfl rfl (by decide)

/-- The group index of a flat name: which of the three prefixes it starts
with (tested in the dispatcher's order). -/
def toolGroup (s : String) : Nat :=
  if pyStartsWith s "printer_" then 0
  else if pyStartsWith s "server_" then 1
  else if pyStartsWith s "server.files_" then 2
  else 3

/-- The bare operation name behind a flat name (prefix stripped). -/
def bareOpName (s : String) : String :=
  if pyStartsWith s "printer_" then pyDrop s ("printer_".length)
  else if pyStartsWith s "server_" then pyDrop s ("server_".length)
  else if pyStartsWith s "server.files_" then pyDrop s ("server.files_".length)
  else s

/-- C10: in the concrete catalog, every `printer_` descriptor precedes
every `server_` descriptor, which precede every `server.files_`
descriptor, and within each group descriptors ascend alphabetically
(Python string order) by bare method name. -/
theorem c10_catalog_order :
    List.Pairwise (fun a b =>
      toolGroup a.function.name < toolGroup b.function.name ∨
        (toolGroup a.function.name = toolGroup b.function.name ∧
          strLtB (bareOpName a.function.name).data
            (bareOpName b.function.name).data = true))
      (get_tools moonraker) := by
  decide

end HomeAutomator
